import Mathlib

/-!
Verification of the KEC cable-sizing calculation engine
(`src/src-tauri/src/main.rs`) through a shallow embedding in Lean 4.

Modelling conventions:
* Rust `f64` arithmetic is modelled as exact arithmetic on `ℚ`; every
  floating-point literal of the source is an exact decimal and is embedded
  as the corresponding rational.  The constant `std::f64::consts::PI` is
  itself a rational number (the IEEE-754 double nearest π), embedded
  exactly as `884279719003555 / 2^48`.
* Rust `HashMap`s built from literal arrays with pairwise-distinct keys are
  modelled as association lists searched with `List.find?`; since the keys
  are distinct, `find?` agrees with the hash-map lookup.
* `u32` quantities are modelled as `ℕ`.
* The fallible Tauri command `calculate` returns `Except String _`, with
  the source's exact error strings.
-/

/-- Input record (Rust struct `CableData`). -/
structure CableData where
  cable_type : String
  cores : String
  size : String
  quantity : ℕ
  system : String
  ground_wire : String
  install_method : String
deriving DecidableEq, Repr

/-- Output record (Rust struct `CalculationResult`). -/
structure CalculationResult where
  total_area : ℚ
  conductor_area : ℚ
  allowable_current : ℚ
  recommended_conduit : String
  fill_rate : ℚ
  install_method_desc : String
deriving DecidableEq, Repr

/-- Association-list lookup modelling `HashMap<&str, f64>::get`. -/
def lookupQ (l : List (String × ℚ)) (k : String) : Option ℚ :=
  (l.find? (fun p => p.1 == k)).map (fun p => p.2)

/-- Exact value of the IEEE-754 double `std::f64::consts::PI`. -/
def pi_f64 : ℚ := 884279719003555 / 281474976710656

/-- TFR-CV 1-core outer diameters (mm), from `get_cable_outer_diameter`. -/
def tfr_cv_1c : List (String × ℚ) := [
  ("1.5", 6.3), ("2.5", 6.7), ("4", 7.2), ("6", 7.8),
  ("10", 9.4), ("16", 10.0), ("25", 12.0), ("35", 13.0),
  ("50", 14.5), ("70", 16.0), ("95", 18.5), ("120", 20.0),
  ("150", 22.0), ("185", 24.0), ("240", 27.0), ("300", 30.0),
  ("400", 34.0), ("500", 37.0)]

/-- TFR-CV 2-core outer diameters (mm). -/
def tfr_cv_2c : List (String × ℚ) := [
  ("1.5", 11.0), ("2.5", 12.0), ("4", 13.0), ("6", 14.0),
  ("10", 18.0), ("16", 21.0), ("25", 25.0), ("35", 29.0),
  ("50", 34.0), ("70", 39.0), ("95", 44.0), ("120", 50.0),
  ("150", 55.0), ("185", 61.0), ("240", 67.0), ("300", 75.0)]

/-- HFIX 1-core outer diameters (mm). -/
def hfix_1c : List (String × ℚ) := [
  ("1.5", 3.3), ("2.5", 4.0), ("4", 4.6), ("6", 5.2),
  ("10", 6.5), ("16", 8.0), ("25", 10.1), ("35", 11.3),
  ("50", 13.2), ("70", 15.5), ("95", 18.0), ("120", 20.0),
  ("150", 22.5), ("185", 25.0), ("240", 28.5), ("300", 32.0)]

/-- CV 1-core outer diameters (mm). -/
def cv_1c : List (String × ℚ) := [
  ("1.5", 6.0), ("2.5", 6.4), ("4", 6.9), ("6", 7.5),
  ("10", 9.0), ("16", 9.6), ("25", 11.5), ("35", 12.5),
  ("50", 14.0), ("70", 15.5), ("95", 18.0), ("120", 19.5),
  ("150", 21.5), ("185", 23.5), ("240", 26.5), ("300", 29.5),
  ("400", 33.0), ("500", 36.0)]

/-- CV 2-core outer diameters (mm). -/
def cv_2c : List (String × ℚ) := [
  ("1.5", 10.5), ("2.5", 11.5), ("4", 12.5), ("6", 13.5),
  ("10", 17.0), ("16", 20.0), ("25", 24.0), ("35", 28.0),
  ("50", 33.0), ("70", 38.0), ("95", 43.0), ("120", 49.0),
  ("150", 54.0), ("185", 60.0), ("240", 66.0), ("300", 74.0)]

/-- FR-CV 1-core outer diameters (mm). -/
def fr_cv_1c : List (String × ℚ) := [
  ("1.5", 6.8), ("2.5", 7.2), ("4", 7.7), ("6", 8.3),
  ("10", 10.0), ("16", 10.6), ("25", 12.6), ("35", 13.6),
  ("50", 15.1), ("70", 16.6), ("95", 19.1), ("120", 20.6),
  ("150", 22.6), ("185", 24.6), ("240", 27.6), ("300", 30.6),
  ("400", 34.6), ("500", 37.6)]

/-- TFR-8 1-core outer diameters (mm). -/
def tfr_8_1c : List (String × ℚ) := [
  ("1.5", 6.5), ("2.5", 6.9), ("4", 7.4), ("6", 8.0),
  ("10", 9.6), ("16", 10.2), ("25", 12.2), ("35", 13.2),
  ("50", 14.7), ("70", 16.2), ("95", 18.7), ("120", 20.2),
  ("150", 22.2), ("185", 24.2), ("240", 27.2), ("300", 30.2)]

/-- Rust `get_cable_outer_diameter`: the source's flat `match` on the pair
`(cable_type, cores)` is rendered as the equivalent nested conditionals,
grouped by cable-type family exactly as the match arms are. -/
def get_cable_outer_diameter (cable_type size cores : String) : Option ℚ :=
  if cable_type = "HFIX" then
    -- HFIX exists only as single-core: `("HFIX", _) => None`
    if cores = "1C" then lookupQ hfix_1c size else none
  else if cable_type = "TFR-CV" then
    if cores = "1C" then lookupQ tfr_cv_1c size
    else if cores = "2C" then lookupQ tfr_cv_2c size
    else if cores = "3C" then (lookupQ tfr_cv_2c size).map (fun d => d * 1.15)
    else if cores = "4C" then (lookupQ tfr_cv_2c size).map (fun d => d * 1.25)
    else none
  else if cable_type = "CV" then
    if cores = "1C" then lookupQ cv_1c size
    else if cores = "2C" then lookupQ cv_2c size
    else if cores = "3C" then (lookupQ cv_2c size).map (fun d => d * 1.15)
    else if cores = "4C" then (lookupQ cv_2c size).map (fun d => d * 1.25)
    else none
  else if cable_type = "FR-CV" then
    if cores = "1C" then lookupQ fr_cv_1c size
    else if cores = "2C" then (lookupQ fr_cv_1c size).map (fun d => d * 1.65)
    else if cores = "3C" then (lookupQ fr_cv_1c size).map (fun d => d * 1.9)
    else if cores = "4C" then (lookupQ fr_cv_1c size).map (fun d => d * 2.1)
    else none
  else if cable_type = "TFR-8" then
    if cores = "1C" then lookupQ tfr_8_1c size
    else if cores = "2C" then (lookupQ tfr_8_1c size).map (fun d => d * 1.65)
    else if cores = "3C" then (lookupQ tfr_8_1c size).map (fun d => d * 1.9)
    else if cores = "4C" then (lookupQ tfr_8_1c size).map (fun d => d * 2.1)
    else none
  else none

/-- Rust `calculate_cable_area`: circular area from an outer diameter. -/
def calculate_cable_area (outer_diameter : ℚ) : ℚ :=
  pi_f64 * (outer_diameter / 2) ^ 2

/-- Ampacity rows `pvc_a1` (size, 2-loaded A, 3-loaded A). -/
def pvc_a1 : List (String × ℚ × ℚ) := [
  ("1.5", 14.5, 13.5), ("2.5", 19.5, 18.0), ("4", 26.0, 24.0),
  ("6", 34.0, 31.0), ("10", 46.0, 42.0), ("16", 61.0, 56.0),
  ("25", 80.0, 73.0), ("35", 99.0, 89.0), ("50", 119.0, 108.0),
  ("70", 151.0, 136.0), ("95", 182.0, 164.0), ("120", 210.0, 188.0),
  ("150", 240.0, 216.0), ("185", 273.0, 245.0), ("240", 321.0, 286.0),
  ("300", 367.0, 328.0), ("400", 424.0, 379.0), ("500", 488.0, 436.0)]

/-- Ampacity rows `pvc_a2` (size, 2-loaded A, 3-loaded A). -/
def pvc_a2 : List (String × ℚ × ℚ) := [
  ("1.5", 14.0, 13.0), ("2.5", 18.5, 17.5), ("4", 25.0, 23.0),
  ("6", 32.0, 29.0), ("10", 43.0, 39.0), ("16", 57.0, 52.0),
  ("25", 75.0, 68.0), ("35", 92.0, 83.0), ("50", 110.0, 99.0),
  ("70", 139.0, 125.0), ("95", 167.0, 150.0), ("120", 192.0, 172.0),
  ("150", 219.0, 196.0), ("185", 248.0, 223.0), ("240", 291.0, 261.0),
  ("300", 334.0, 298.0), ("400", 386.0, 345.0), ("500", 444.0, 397.0)]

/-- Ampacity rows `pvc_b1` (size, 2-loaded A, 3-loaded A). -/
def pvc_b1 : List (String × ℚ × ℚ) := [
  ("1.5", 17.5, 15.5), ("2.5", 24.0, 21.0), ("4", 32.0, 28.0),
  ("6", 41.0, 36.0), ("10", 57.0, 50.0), ("16", 76.0, 68.0),
  ("25", 101.0, 89.0), ("35", 125.0, 110.0), ("50", 151.0, 134.0),
  ("70", 192.0, 171.0), ("95", 232.0, 207.0), ("120", 269.0, 239.0),
  ("150", 309.0, 275.0), ("185", 353.0, 314.0), ("240", 415.0, 369.0),
  ("300", 477.0, 423.0), ("400", 555.0, 490.0), ("500", 642.0, 565.0)]

/-- Ampacity rows `pvc_b2` (size, 2-loaded A, 3-loaded A). -/
def pvc_b2 : List (String × ℚ × ℚ) := [
  ("1.5", 16.5, 15.0), ("2.5", 23.0, 20.0), ("4", 30.0, 27.0),
  ("6", 38.0, 34.0), ("10", 52.0, 46.0), ("16", 69.0, 62.0),
  ("25", 90.0, 80.0), ("35", 111.0, 99.0), ("50", 133.0, 118.0),
  ("70", 168.0, 149.0), ("95", 201.0, 179.0), ("120", 232.0, 206.0),
  ("150", 265.0, 236.0), ("185", 300.0, 268.0), ("240", 351.0, 313.0),
  ("300", 401.0, 358.0), ("400", 464.0, 414.0), ("500", 533.0, 476.0)]

/-- Ampacity rows `pvc_c` (size, 2-loaded A, 3-loaded A). -/
def pvc_c : List (String × ℚ × ℚ) := [
  ("1.5", 19.5, 17.5), ("2.5", 27.0, 24.0), ("4", 36.0, 32.0),
  ("6", 46.0, 41.0), ("10", 63.0, 57.0), ("16", 85.0, 76.0),
  ("25", 112.0, 96.0), ("35", 138.0, 119.0), ("50", 168.0, 144.0),
  ("70", 213.0, 184.0), ("95", 258.0, 223.0), ("120", 299.0, 259.0),
  ("150", 344.0, 299.0), ("185", 392.0, 341.0), ("240", 461.0, 403.0),
  ("300", 530.0, 464.0), ("400", 614.0, 545.0), ("500", 707.0, 638.0)]

/-- Ampacity rows `pvc_d1` (size, 2-loaded A, 3-loaded A). -/
def pvc_d1 : List (String × ℚ × ℚ) := [
  ("1.5", 22.0, 18.0), ("2.5", 29.0, 24.0), ("4", 37.0, 30.0),
  ("6", 46.0, 38.0), ("10", 61.0, 50.0), ("16", 79.0, 64.0),
  ("25", 101.0, 82.0), ("35", 122.0, 98.0), ("50", 144.0, 116.0),
  ("70", 178.0, 143.0), ("95", 211.0, 169.0), ("120", 240.0, 192.0),
  ("150", 271.0, 217.0), ("185", 304.0, 243.0), ("240", 351.0, 280.0),
  ("300", 396.0, 316.0), ("400", 454.0, 363.0), ("500", 513.0, 410.0)]

/-- Ampacity rows `pvc_d2` (size, 2-loaded A, 3-loaded A). -/
def pvc_d2 : List (String × ℚ × ℚ) := [
  ("1.5", 24.0, 19.0), ("2.5", 32.0, 24.0), ("4", 41.0, 33.0),
  ("6", 51.0, 41.0), ("10", 67.0, 54.0), ("16", 87.0, 70.0),
  ("25", 112.0, 92.0), ("35", 136.0, 110.0), ("50", 161.0, 130.0),
  ("70", 200.0, 162.0), ("95", 239.0, 193.0), ("120", 273.0, 220.0),
  ("150", 310.0, 246.0), ("185", 349.0, 278.0), ("240", 404.0, 320.0),
  ("300", 458.0, 359.0), ("400", 524.0, 414.0), ("500", 590.0, 467.0)]

/-- Ampacity rows `pvc_e` (size, 2-loaded A, 3-loaded A). -/
def pvc_e : List (String × ℚ × ℚ) := [
  ("1.5", 22.0, 18.5), ("2.5", 30.0, 25.0), ("4", 40.0, 34.0),
  ("6", 51.0, 43.0), ("10", 70.0, 60.0), ("16", 94.0, 80.0),
  ("25", 119.0, 101.0), ("35", 148.0, 126.0), ("50", 180.0, 153.0),
  ("70", 232.0, 196.0), ("95", 282.0, 238.0), ("120", 328.0, 276.0),
  ("150", 379.0, 319.0), ("185", 434.0, 364.0), ("240", 514.0, 430.0),
  ("300", 593.0, 497.0), ("400", 694.0, 592.0), ("500", 806.0, 706.0)]

/-- Ampacity rows `pvc_f` (size, 2-loaded A, 3-loaded A). -/
def pvc_f : List (String × ℚ × ℚ) := [
  ("1.5", 25.0, 21.0), ("2.5", 34.0, 28.0), ("4", 45.0, 38.0),
  ("6", 58.0, 48.0), ("10", 79.0, 67.0), ("16", 105.0, 89.0),
  ("25", 133.0, 113.0), ("35", 166.0, 141.0), ("50", 201.0, 171.0),
  ("70", 259.0, 219.0), ("95", 315.0, 266.0), ("120", 367.0, 309.0),
  ("150", 424.0, 357.0), ("185", 486.0, 408.0), ("240", 575.0, 482.0),
  ("300", 664.0, 557.0), ("400", 777.0, 664.0), ("500", 903.0, 791.0)]

/-- Ampacity rows `xlpe_a1` (size, 2-loaded A, 3-loaded A). -/
def xlpe_a1 : List (String × ℚ × ℚ) := [
  ("1.5", 19.5, 17.0), ("2.5", 26.0, 23.0), ("4", 35.0, 31.0),
  ("6", 45.0, 40.0), ("10", 61.0, 54.0), ("16", 81.0, 73.0),
  ("25", 106.0, 95.0), ("35", 131.0, 117.0), ("50", 158.0, 141.0),
  ("70", 200.0, 179.0), ("95", 241.0, 216.0), ("120", 278.0, 249.0),
  ("150", 318.0, 285.0), ("185", 362.0, 324.0), ("240", 424.0, 380.0),
  ("300", 486.0, 435.0), ("400", 561.0, 503.0), ("500", 645.0, 578.0)]

/-- Ampacity rows `xlpe_a2` (size, 2-loaded A, 3-loaded A). -/
def xlpe_a2 : List (String × ℚ × ℚ) := [
  ("1.5", 18.5, 16.5), ("2.5", 25.0, 22.0), ("4", 33.0, 30.0),
  ("6", 42.0, 38.0), ("10", 57.0, 51.0), ("16", 76.0, 68.0),
  ("25", 99.0, 89.0), ("35", 121.0, 109.0), ("50", 145.0, 130.0),
  ("70", 183.0, 164.0), ("95", 220.0, 197.0), ("120", 253.0, 227.0),
  ("150", 290.0, 259.0), ("185", 329.0, 295.0), ("240", 386.0, 346.0),
  ("300", 442.0, 396.0), ("400", 511.0, 458.0), ("500", 587.0, 526.0)]

/-- Ampacity rows `xlpe_b1` (size, 2-loaded A, 3-loaded A). -/
def xlpe_b1 : List (String × ℚ × ℚ) := [
  ("1.5", 23.0, 20.0), ("2.5", 31.0, 28.0), ("4", 42.0, 37.0),
  ("6", 54.0, 48.0), ("10", 75.0, 66.0), ("16", 100.0, 88.0),
  ("25", 133.0, 117.0), ("35", 164.0, 144.0), ("50", 198.0, 175.0),
  ("70", 253.0, 222.0), ("95", 306.0, 269.0), ("120", 354.0, 312.0),
  ("150", 407.0, 358.0), ("185", 464.0, 408.0), ("240", 546.0, 481.0),
  ("300", 628.0, 553.0), ("400", 732.0, 644.0), ("500", 846.0, 745.0)]

/-- Ampacity rows `xlpe_b2` (size, 2-loaded A, 3-loaded A). -/
def xlpe_b2 : List (String × ℚ × ℚ) := [
  ("1.5", 22.0, 19.5), ("2.5", 30.0, 27.0), ("4", 40.0, 35.0),
  ("6", 51.0, 45.0), ("10", 69.0, 62.0), ("16", 91.0, 82.0),
  ("25", 119.0, 107.0), ("35", 146.0, 131.0), ("50", 175.0, 158.0),
  ("70", 221.0, 200.0), ("95", 265.0, 240.0), ("120", 305.0, 276.0),
  ("150", 349.0, 316.0), ("185", 395.0, 358.0), ("240", 462.0, 419.0),
  ("300", 528.0, 479.0), ("400", 609.0, 553.0), ("500", 698.0, 635.0)]

/-- Ampacity rows `xlpe_c` (size, 2-loaded A, 3-loaded A). -/
def xlpe_c : List (String × ℚ × ℚ) := [
  ("1.5", 24.0, 22.0), ("2.5", 33.0, 30.0), ("4", 45.0, 40.0),
  ("6", 58.0, 52.0), ("10", 80.0, 71.0), ("16", 107.0, 96.0),
  ("25", 138.0, 119.0), ("35", 171.0, 147.0), ("50", 209.0, 179.0),
  ("70", 269.0, 229.0), ("95", 328.0, 278.0), ("120", 382.0, 322.0),
  ("150", 441.0, 371.0), ("185", 506.0, 424.0), ("240", 599.0, 500.0),
  ("300", 693.0, 576.0), ("400", 812.0, 673.0), ("500", 942.0, 778.0)]

/-- Ampacity rows `xlpe_d1` (size, 2-loaded A, 3-loaded A). -/
def xlpe_d1 : List (String × ℚ × ℚ) := [
  ("1.5", 28.0, 22.0), ("2.5", 36.0, 29.0), ("4", 46.0, 37.0),
  ("6", 57.0, 46.0), ("10", 75.0, 60.0), ("16", 97.0, 77.0),
  ("25", 123.0, 99.0), ("35", 149.0, 119.0), ("50", 176.0, 140.0),
  ("70", 218.0, 173.0), ("95", 259.0, 204.0), ("120", 295.0, 233.0),
  ("150", 334.0, 263.0), ("185", 376.0, 295.0), ("240", 434.0, 340.0),
  ("300", 492.0, 384.0), ("400", 565.0, 441.0), ("500", 641.0, 499.0)]

/-- Ampacity rows `xlpe_d2` (size, 2-loaded A, 3-loaded A). -/
def xlpe_d2 : List (String × ℚ × ℚ) := [
  ("1.5", 31.0, 24.0), ("2.5", 41.0, 31.0), ("4", 52.0, 40.0),
  ("6", 65.0, 50.0), ("10", 85.0, 66.0), ("16", 110.0, 85.0),
  ("25", 141.0, 109.0), ("35", 170.0, 132.0), ("50", 202.0, 156.0),
  ("70", 251.0, 193.0), ("95", 300.0, 229.0), ("120", 343.0, 261.0),
  ("150", 390.0, 296.0), ("185", 440.0, 333.0), ("240", 510.0, 385.0),
  ("300", 578.0, 436.0), ("400", 664.0, 500.0), ("500", 753.0, 566.0)]

/-- Ampacity rows `xlpe_e` (size, 2-loaded A, 3-loaded A). -/
def xlpe_e : List (String × ℚ × ℚ) := [
  ("1.5", 26.0, 23.0), ("2.5", 36.0, 32.0), ("4", 49.0, 42.0),
  ("6", 63.0, 54.0), ("10", 86.0, 75.0), ("16", 115.0, 100.0),
  ("25", 149.0, 127.0), ("35", 185.0, 158.0), ("50", 225.0, 192.0),
  ("70", 289.0, 246.0), ("95", 352.0, 298.0), ("120", 410.0, 346.0),
  ("150", 473.0, 399.0), ("185", 542.0, 456.0), ("240", 641.0, 538.0),
  ("300", 741.0, 621.0), ("400", 868.0, 742.0), ("500", 1008.0, 887.0)]

/-- Ampacity rows `xlpe_f` (size, 2-loaded A, 3-loaded A). -/
def xlpe_f : List (String × ℚ × ℚ) := [
  ("1.5", 29.0, 25.0), ("2.5", 40.0, 35.0), ("4", 55.0, 47.0),
  ("6", 71.0, 60.0), ("10", 96.0, 83.0), ("16", 128.0, 111.0),
  ("25", 166.0, 141.0), ("35", 206.0, 176.0), ("50", 251.0, 214.0),
  ("70", 323.0, 274.0), ("95", 393.0, 332.0), ("120", 458.0, 386.0),
  ("150", 529.0, 445.0), ("185", 606.0, 509.0), ("240", 717.0, 601.0),
  ("300", 829.0, 694.0), ("400", 971.0, 828.0), ("500", 1127.0, 990.0)]

/-- Rust `get_allowable_current_table`: the `HashMap` built from the 18 row
groups, keyed by `(size, insulation, install_method)`.  All keys are pairwise
distinct, so an association list searched front-to-back is an exact model. -/
def get_allowable_current_table : List ((String × String × String) × ℚ × ℚ) :=
  pvc_a1.map (fun r => ((r.1, "PVC", "A1"), r.2)) ++
  pvc_a2.map (fun r => ((r.1, "PVC", "A2"), r.2)) ++
  pvc_b1.map (fun r => ((r.1, "PVC", "B1"), r.2)) ++
  pvc_b2.map (fun r => ((r.1, "PVC", "B2"), r.2)) ++
  pvc_c.map (fun r => ((r.1, "PVC", "C"), r.2)) ++
  pvc_d1.map (fun r => ((r.1, "PVC", "D1"), r.2)) ++
  pvc_d2.map (fun r => ((r.1, "PVC", "D2"), r.2)) ++
  pvc_e.map (fun r => ((r.1, "PVC", "E"), r.2)) ++
  pvc_f.map (fun r => ((r.1, "PVC", "F"), r.2)) ++
  xlpe_a1.map (fun r => ((r.1, "XLPE", "A1"), r.2)) ++
  xlpe_a2.map (fun r => ((r.1, "XLPE", "A2"), r.2)) ++
  xlpe_b1.map (fun r => ((r.1, "XLPE", "B1"), r.2)) ++
  xlpe_b2.map (fun r => ((r.1, "XLPE", "B2"), r.2)) ++
  xlpe_c.map (fun r => ((r.1, "XLPE", "C"), r.2)) ++
  xlpe_d1.map (fun r => ((r.1, "XLPE", "D1"), r.2)) ++
  xlpe_d2.map (fun r => ((r.1, "XLPE", "D2"), r.2)) ++
  xlpe_e.map (fun r => ((r.1, "XLPE", "E"), r.2)) ++
  xlpe_f.map (fun r => ((r.1, "XLPE", "F"), r.2))

/-- Lookup in the ampacity table, modelling `HashMap::get` on the triple key. -/
def lookup3 (l : List ((String × String × String) × ℚ × ℚ))
    (size insulation method : String) : Option (ℚ × ℚ) :=
  (l.find? (fun p => p.1 == (size, insulation, method))).map (fun p => p.2)

/-- Rust `get_conduit_data`: steel-conduit catalogue (name, inner diameter mm),
ascending. -/
def get_conduit_data : List (String × ℚ) := [
  ("C16 (16mm)", 15.8),
  ("C22 (22mm)", 21.0),
  ("C28 (28mm)", 26.6),
  ("C36 (36mm)", 35.0),
  ("C42 (42mm)", 41.0),
  ("C54 (54mm)", 53.0),
  ("C70 (70mm)", 69.0),
  ("C82 (82mm)", 80.0),
  ("C92 (92mm)", 89.0),
  ("C104 (104mm)", 101.0)]

/-- The loop body of Rust `recommend_conduit`: scan the catalogue in order,
return the first conduit whose 33%-fill capacity covers `total_area`; the
sentinel when the list is exhausted. -/
def recommend_conduit_loop (conduits : List (String × ℚ)) (total_area : ℚ) :
    String × ℚ :=
  match conduits with
  | [] => ("C104 이상 검토 필요", 100.0)
  | (name, inner_diameter) :: rest =>
    let conduit_area := pi_f64 * (inner_diameter / 2) ^ 2
    let available_area := conduit_area * 0.33
    if available_area ≥ total_area then (name, total_area / conduit_area * 100)
    else recommend_conduit_loop rest total_area

/-- Rust `recommend_conduit` (KEC 232.2, 33% max fill). -/
def recommend_conduit (total_area : ℚ) : String × ℚ :=
  recommend_conduit_loop get_conduit_data total_area

/-- Rust `get_insulation_type`. -/
def get_insulation_type (cable_type : String) : String :=
  if cable_type = "HFIX" then "XLPE"
  else if cable_type = "CV" ∨ cable_type = "TFR-CV" ∨ cable_type = "FR-CV" ∨
      cable_type = "TFR-8" then "XLPE"
  else "PVC"

/-- Rust `get_grouping_factor` (KEC Table B.52.17); the `match` on `u32`
range patterns rendered as the equivalent guards.  The source's final two
arms (`17..=20` and `_`) both give `0.38`. -/
def get_grouping_factor (num_circuits : ℕ) : ℚ :=
  if num_circuits ≤ 1 then 1.00
  else if num_circuits = 2 then 0.80
  else if num_circuits = 3 then 0.70
  else if num_circuits = 4 then 0.65
  else if num_circuits = 5 then 0.60
  else if num_circuits = 6 then 0.57
  else if num_circuits = 7 then 0.54
  else if num_circuits = 8 then 0.52
  else if num_circuits = 9 then 0.50
  else if num_circuits ≤ 12 then 0.45
  else if num_circuits ≤ 16 then 0.41
  else 0.38

/-- Rust `get_install_method_description`. -/
def get_install_method_description (method : String) : String :=
  if method = "A1" then "단열벽 속 전선관 (절연전선/단심 케이블)"
  else if method = "A2" then "단열벽 속 전선관 (다심 케이블)"
  else if method = "B1" then "벽면 고정 전선관 (절연전선/단심 케이블)"
  else if method = "B2" then "벽면 고정 전선관 (다심 케이블)"
  else if method = "C" then "벽면/천정 직접 고정 (공기 중)"
  else if method = "D1" then "지중 매설 덕트"
  else if method = "D2" then "지중 매설 직매"
  else if method = "E" then "케이블 트레이 (천공형, 단심)"
  else if method = "F" then "케이블 트레이 (천공형, 다심)"
  else "기타"

/-- Rust `f64::round` (round half away from zero), on an exact rational. -/
def fround (q : ℚ) : ℤ :=
  if 0 ≤ q then ⌊q + 1/2⌋ else ⌈q - 1/2⌉

/-- `(x * 100.0).round() / 100.0`: rounding to 2 decimals at packaging time. -/
def round2 (q : ℚ) : ℚ := (fround (q * 100) : ℚ) / 100

/-- `(x * 10.0).round() / 10.0`: rounding to 1 decimal at packaging time. -/
def round1 (q : ℚ) : ℚ := (fround (q * 10) : ℚ) / 10

/-- Digits of a decimal numeral, or `none` when a non-digit occurs. -/
def decimal_digits (l : List Char) : Option ℕ :=
  l.foldl
    (fun a c => a.bind (fun n => if c.isDigit then some (10 * n + (c.toNat - 48)) else none))
    (some 0)

/-- Models `data.size.parse::<f64>().unwrap_or(0.0)` on the plain decimal
numerals the catalogue uses ("1.5", "25", …); any other shape gives the
same `0.0` default the Rust `unwrap_or` gives. -/
def parse_size (s : String) : ℚ :=
  match s.splitOn "." with
  | [w] => ((decimal_digits w.toList).map (fun n => (n : ℚ))).getD 0
  | [w, f] =>
    match decimal_digits w.toList, decimal_digits f.toList with
    | some a, some b => (a : ℚ) + (b : ℚ) / (10 : ℚ) ^ f.length
    | _, _ => 0
  | _ => 0

/-- Renders a non-negative rational with two decimals, modelling the
`{:.2}` float formatting of the grouping factor in the result's
description string (every tabulated factor is an exact two-decimal value,
so no tie-breaking case arises). -/
def format2 (q : ℚ) : String :=
  let n := fround (q * 100)
  let r := (n % 100).natAbs
  toString (n / 100) ++ "." ++ (if r < 10 then "0" else "") ++ toString r

/-- The ground-wire step-down table inlined in `calculate` (KEC-style
half-size ground conductor). -/
def ground_size (size : String) : String :=
  if size = "1.5" ∨ size = "2.5" then "1.5"
  else if size = "4" ∨ size = "6" then "2.5"
  else if size = "10" ∨ size = "16" then "6"
  else if size = "25" ∨ size = "35" then "16"
  else if size = "50" ∨ size = "70" then "25"
  else if size = "95" ∨ size = "120" then "35"
  else if size = "150" ∨ size = "185" then "70"
  else "95"

/-- The total installed area `calculate` accumulates for a resolved main
outer diameter `od`: single-cable area times quantity, plus — when a ground
wire is requested — the area of one 1-core HFIX ground wire of the
stepped-down size; a missing ground-wire diameter is silently skipped. -/
def total_area_of (data : CableData) (od : ℚ) : ℚ :=
  let single_cable_area := calculate_cable_area od
  let base := single_cable_area * (data.quantity : ℚ)
  if data.ground_wire = "HFIX" then
    match get_cable_outer_diameter "HFIX" (ground_size data.size) "1C" with
    | some ground_od => base + calculate_cable_area ground_od
    | none => base
  else base

/-- Installation-method resolution inside `calculate`: an explicit non-empty
method is used verbatim; an empty one infers B1 for single-core, B2
otherwise. -/
def resolve_install_method (data : CableData) : String :=
  if data.install_method.isEmpty then
    (if data.cores = "1C" then "B1" else "B2")
  else data.install_method

/-- Loaded-pair selection inside `calculate`: the 2-loaded entry for "1Φ",
the 3-loaded entry for "3Φ", the 2-loaded entry as the default arm, each
with its display label. -/
def select_base_current (system : String) (current_values : ℚ × ℚ) : ℚ × String :=
  if system = "1Φ" then (current_values.1, "2부하(단상)")
  else if system = "3Φ" then (current_values.2, "3부하(3상)")
  else (current_values.1, "2부하(기본)")

/-- Circuit-count computation inside `calculate`: for single-core cable,
ceiling division of the quantity by the cables-per-circuit of the voltage
system (`2` for "1Φ", `3` for every other label); for multi-core cable the
quantity itself. -/
def num_circuits (data : CableData) : ℕ :=
  if data.cores = "1C" then
    let cables_per_circuit := if data.system = "1Φ" then 2 else 3
    (data.quantity + cables_per_circuit - 1) / cables_per_circuit
  else data.quantity

/-- Rust `calculate` (the Tauri command): the linear pipeline
outer-diameter lookup → areas → optional ground wire → insulation & method →
ampacity pair → loaded selection → grouping factor → conduit
recommendation → rounded packaging.  Errors are the source's exact
strings. -/
def calculate (data : CableData) : Except String CalculationResult :=
  match get_cable_outer_diameter data.cable_type data.size data.cores with
  | none => .error "지원하지 않는 전선 규격입니다."
  | some outer_diameter =>
    let total_area := total_area_of data outer_diameter
    let conductor_area := parse_size data.size * (data.quantity : ℚ)
    let insulation := get_insulation_type data.cable_type
    let install_method := resolve_install_method data
    match lookup3 get_allowable_current_table data.size insulation install_method with
    | none => .error "허용전류 데이터를 찾을 수 없습니다."
    | some current_values =>
      let bc := select_base_current data.system current_values
      let grouping_factor := get_grouping_factor (num_circuits data)
      let allowable_current := bc.1 * grouping_factor
      let rc := recommend_conduit total_area
      let install_method_desc :=
        get_install_method_description install_method ++ " / " ++ bc.2 ++
          " / 집합계수: " ++ format2 grouping_factor ++ " (" ++
          toString (num_circuits data) ++ "회로)"
      .ok {
        total_area := round2 total_area
        conductor_area := round2 conductor_area
        allowable_current := round1 allowable_current
        recommended_conduit := rc.1
        fill_rate := round1 rc.2
        install_method_desc := install_method_desc }

/-! ## Concrete inputs used by counterexample and witness theorems -/

/-- The input showing claim C2 false: single-core cable under the voltage
system label "X" (neither "1Φ" nor "3Φ"), three cables. -/
def c2_fallback_data : CableData :=
  { cable_type := "TFR-CV", cores := "1C", size := "2.5", quantity := 3,
    system := "X", ground_wire := "없음", install_method := "B1" }

/-- Witness input for C6: HFIX requested as 2-core. -/
def c6_data : CableData :=
  { cable_type := "HFIX", cores := "2C", size := "2.5", quantity := 1,
    system := "1Φ", ground_wire := "없음", install_method := "" }

/-- Witness input for C1: two single-core TFR-CV 2.5 mm² conductors on a
single-phase system, explicit method B1. -/
def c1_data : CableData :=
  { cable_type := "TFR-CV", cores := "1C", size := "2.5", quantity := 2,
    system := "1Φ", ground_wire := "없음", install_method := "B1" }

/-- Witness input for C7: the unrecognized cable type "IV" resolves to the
conservative PVC default. -/
def c7_data : CableData :=
  { cable_type := "IV", cores := "1C", size := "2.5", quantity := 2,
    system := "1Φ", ground_wire := "없음", install_method := "B1" }

/-- Witness input for C9: two 1-core HFIX 150 mm² conductors with a ground
wire requested (stepping down to 70 mm²). -/
def c9_data : CableData :=
  { cable_type := "HFIX", cores := "1C", size := "150", quantity := 2,
    system := "1Φ", ground_wire := "HFIX", install_method := "" }

/-! ## Supporting lemmas -/

theorem get_grouping_factor_of_ge17 (n : ℕ) (h : 17 ≤ n) :
    get_grouping_factor n = 0.38 := by
  unfold get_grouping_factor
  repeat rw [if_neg (by omega)]

theorem get_grouping_factor_succ_le (n : ℕ) :
    get_grouping_factor (n + 1) ≤ get_grouping_factor n := by
  rcases le_or_lt 17 n with h | h
  · rw [get_grouping_factor_of_ge17 n h, get_grouping_factor_of_ge17 (n + 1) (by omega)]
  · interval_cases n <;> norm_num [get_grouping_factor]

theorem get_grouping_factor_antitone : Antitone get_grouping_factor :=
  antitone_nat_of_succ_le get_grouping_factor_succ_le

/-- C5: `get_grouping_factor` is a total function on circuit counts with
`0 ↦ 1.00` and `1 ↦ 1.00`, it is monotonically non-increasing, and every
circuit count above the largest tabulated bucket (20) yields the lowest
tabulated factor `0.38` rather than extrapolating further. -/
theorem grouping_factor_total_monotone_clamped :
    get_grouping_factor 0 = 1.00 ∧ get_grouping_factor 1 = 1.00 ∧
    (∀ m n : ℕ, m ≤ n → get_grouping_factor n ≤ get_grouping_factor m) ∧
    (∀ n : ℕ, 20 < n → get_grouping_factor n = 0.38) := by
  refine ⟨by norm_num [get_grouping_factor], by norm_num [get_grouping_factor], ?_, ?_⟩
  · exact fun m n h => get_grouping_factor_antitone h
  · exact fun n h => get_grouping_factor_of_ge17 n (by omega)

/-- C8: Installation-method resolution is a conditional identity: a spec
supplying a non-empty method keeps it unchanged; an empty method resolves to
"B1" for cores "1C" and to "B2" for any other cores value. -/
theorem resolve_install_method_conditional_identity (data : CableData) :
    (data.install_method ≠ "" → resolve_install_method data = data.install_method) ∧
    (data.install_method = "" →
      resolve_install_method data = if data.cores = "1C" then "B1" else "B2") := by
  constructor
  · intro h
    rw [resolve_install_method, if_neg]
    simp [String.isEmpty_iff, h]
  · intro h
    rw [resolve_install_method, if_pos]
    simp [String.isEmpty_iff, h]

/-- C2 counterexample: For a single-core spec with quantity 3 and the
unrecognized system label "X", the claimed fallback of 2 conductors per
circuit would give ceil(3/2) = 2 circuits, but the code divides by 3 and
yields 1 circuit. -/
theorem num_circuits_fallback_counterexample :
    num_circuits c2_fallback_data = 1 ∧
    (c2_fallback_data.quantity + 2 - 1) / 2 = 2 ∧
    num_circuits c2_fallback_data ≠ (c2_fallback_data.quantity + 2 - 1) / 2 := by
  refine ⟨?_, by norm_num [c2_fallback_data], ?_⟩ <;>
    simp [num_circuits, c2_fallback_data]

/-- C2 amended: The circuit count is: for single-core cable,
ceil(quantity / conductorsPerCircuit) where conductorsPerCircuit is 2 when
the system is "1Φ" and 3 for every other system label ("3Φ" and any
fallback); for multi-core cable, the quantity itself. -/
theorem num_circuits_shape (data : CableData) :
    (data.cores = "1C" → data.system = "1Φ" →
      num_circuits data = (data.quantity + 2 - 1) / 2) ∧
    (data.cores = "1C" → data.system ≠ "1Φ" →
      num_circuits data = (data.quantity + 3 - 1) / 3) ∧
    (data.cores ≠ "1C" → num_circuits data = data.quantity) := by
  refine ⟨fun h1 h2 => ?_, fun h1 h2 => ?_, fun h => ?_⟩
  · simp [num_circuits, h1, h2]
  · simp [num_circuits, h1, h2]
  · simp [num_circuits, h]

/-- A lookup in a table whose stored diameters are all positive yields
nothing or a positive diameter. -/
theorem lookupQ_none_or_pos (l : List (String × ℚ)) (h : ∀ p ∈ l, 0 < p.2)
    (s : String) : lookupQ l s = none ∨ ∃ d, lookupQ l s = some d ∧ 0 < d := by
  unfold lookupQ
  cases hf : l.find? (fun p => p.1 == s) with
  | none => exact Or.inl rfl
  | some p => exact Or.inr ⟨p.2, rfl, h p (List.mem_of_find?_eq_some hf)⟩

/-- Scaling by a positive family multiplier preserves "nothing or positive". -/
theorem map_mul_none_or_pos (o : Option ℚ) (k : ℚ) (hk : 0 < k)
    (h : o = none ∨ ∃ d, o = some d ∧ 0 < d) :
    o.map (fun d => d * k) = none ∨ ∃ d, o.map (fun d => d * k) = some d ∧ 0 < d := by
  rcases h with h | ⟨d, hd, hdpos⟩
  · exact Or.inl (by rw [h]; rfl)
  · exact Or.inr ⟨d * k, by rw [hd]; rfl, mul_pos hdpos hk⟩

theorem tfr_cv_1c_pos : ∀ p ∈ tfr_cv_1c, 0 < p.2 := by
  norm_num [tfr_cv_1c, List.forall_mem_cons]

theorem tfr_cv_2c_pos : ∀ p ∈ tfr_cv_2c, 0 < p.2 := by
  norm_num [tfr_cv_2c, List.forall_mem_cons]

theorem hfix_1c_pos : ∀ p ∈ hfix_1c, 0 < p.2 := by
  norm_num [hfix_1c, List.forall_mem_cons]

theorem cv_1c_pos : ∀ p ∈ cv_1c, 0 < p.2 := by
  norm_num [cv_1c, List.forall_mem_cons]

theorem cv_2c_pos : ∀ p ∈ cv_2c, 0 < p.2 := by
  norm_num [cv_2c, List.forall_mem_cons]

theorem fr_cv_1c_pos : ∀ p ∈ fr_cv_1c, 0 < p.2 := by
  norm_num [fr_cv_1c, List.forall_mem_cons]

theorem tfr_8_1c_pos : ∀ p ∈ tfr_8_1c, 0 < p.2 := by
  norm_num [tfr_8_1c, List.forall_mem_cons]

set_option maxHeartbeats 2000000 in
/-- C4: The outer-diameter lookup returns the exact base-table value for
stored (cable type, core count, size) combinations; derived core counts come
from the family base diameter by the fixed multipliers (TFR-CV/CV: 3-core =
2-core × 1.15, 4-core = 2-core × 1.25; FR-CV/TFR-8: 2, 3, 4-core = 1-core ×
1.65, 1.9, 2.1); physically undefined combinations (HFIX multi-core, unknown
types) give `none`; and no input ever yields a zero diameter: every returned
diameter is positive. -/
theorem get_cable_outer_diameter_spec :
    (∀ s, get_cable_outer_diameter "HFIX" s "1C" = lookupQ hfix_1c s) ∧
    (∀ s, get_cable_outer_diameter "TFR-CV" s "1C" = lookupQ tfr_cv_1c s) ∧
    (∀ s, get_cable_outer_diameter "TFR-CV" s "2C" = lookupQ tfr_cv_2c s) ∧
    (∀ s, get_cable_outer_diameter "CV" s "1C" = lookupQ cv_1c s) ∧
    (∀ s, get_cable_outer_diameter "CV" s "2C" = lookupQ cv_2c s) ∧
    (∀ s, get_cable_outer_diameter "FR-CV" s "1C" = lookupQ fr_cv_1c s) ∧
    (∀ s, get_cable_outer_diameter "TFR-8" s "1C" = lookupQ tfr_8_1c s) ∧
    (∀ s, get_cable_outer_diameter "TFR-CV" s "3C" =
      (get_cable_outer_diameter "TFR-CV" s "2C").map (fun d => d * 1.15)) ∧
    (∀ s, get_cable_outer_diameter "TFR-CV" s "4C" =
      (get_cable_outer_diameter "TFR-CV" s "2C").map (fun d => d * 1.25)) ∧
    (∀ s, get_cable_outer_diameter "CV" s "3C" =
      (get_cable_outer_diameter "CV" s "2C").map (fun d => d * 1.15)) ∧
    (∀ s, get_cable_outer_diameter "CV" s "4C" =
      (get_cable_outer_diameter "CV" s "2C").map (fun d => d * 1.25)) ∧
    (∀ s, get_cable_outer_diameter "FR-CV" s "2C" =
      (get_cable_outer_diameter "FR-CV" s "1C").map (fun d => d * 1.65)) ∧
    (∀ s, get_cable_outer_diameter "FR-CV" s "3C" =
      (get_cable_outer_diameter "FR-CV" s "1C").map (fun d => d * 1.9)) ∧
    (∀ s, get_cable_outer_diameter "FR-CV" s "4C" =
      (get_cable_outer_diameter "FR-CV" s "1C").map (fun d => d * 2.1)) ∧
    (∀ s, get_cable_outer_diameter "TFR-8" s "2C" =
      (get_cable_outer_diameter "TFR-8" s "1C").map (fun d => d * 1.65)) ∧
    (∀ s, get_cable_outer_diameter "TFR-8" s "3C" =
      (get_cable_outer_diameter "TFR-8" s "1C").map (fun d => d * 1.9)) ∧
    (∀ s, get_cable_outer_diameter "TFR-8" s "4C" =
      (get_cable_outer_diameter "TFR-8" s "1C").map (fun d => d * 2.1)) ∧
    (∀ s c, c ≠ "1C" → get_cable_outer_diameter "HFIX" s c = none) ∧
    (∀ t s c, t ≠ "HFIX" → t ≠ "TFR-CV" → t ≠ "CV" → t ≠ "FR-CV" → t ≠ "TFR-8" →
      get_cable_outer_diameter t s c = none) ∧
    (∀ t s c, get_cable_outer_diameter t s c = none ∨
      ∃ d, get_cable_outer_diameter t s c = some d ∧ 0 < d) := by
  refine ⟨fun s => by simp [get_cable_outer_diameter],
    fun s => by simp [get_cable_outer_diameter],
    fun s => by simp [get_cable_outer_diameter],
    fun s => by simp [get_cable_outer_diameter],
    fun s => by simp [get_cable_outer_diameter],
    fun s => by simp [get_cable_outer_diameter],
    fun s => by simp [get_cable_outer_diameter],
    fun s => by simp [get_cable_outer_diameter],
    fun s => by simp [get_cable_outer_diameter],
    fun s => by simp [get_cable_outer_diameter],
    fun s => by simp [get_cable_outer_diameter],
    fun s => by simp [get_cable_outer_diameter],
    fun s => by simp [get_cable_outer_diameter],
    fun s => by simp [get_cable_outer_diameter],
    fun s => by simp [get_cable_outer_diameter],
    fun s => by simp [get_cable_outer_diameter],
    fun s => by simp [get_cable_outer_diameter],
    fun s c hc => by simp [get_cable_outer_diameter, hc],
    fun t s c h1 h2 h3 h4 h5 => by simp [get_cable_outer_diameter, h1, h2, h3, h4, h5],
    ?_⟩
  intro t s c
  unfold get_cable_outer_diameter
  split_ifs <;>
    first
      | exact Or.inl rfl
      | exact lookupQ_none_or_pos _ hfix_1c_pos s
      | exact lookupQ_none_or_pos _ tfr_cv_1c_pos s
      | exact lookupQ_none_or_pos _ tfr_cv_2c_pos s
      | exact lookupQ_none_or_pos _ cv_1c_pos s
      | exact lookupQ_none_or_pos _ cv_2c_pos s
      | exact lookupQ_none_or_pos _ fr_cv_1c_pos s
      | exact lookupQ_none_or_pos _ tfr_8_1c_pos s
      | exact map_mul_none_or_pos _ _ (by norm_num)
          (lookupQ_none_or_pos _ tfr_cv_2c_pos s)
      | exact map_mul_none_or_pos _ _ (by norm_num)
          (lookupQ_none_or_pos _ cv_2c_pos s)
      | exact map_mul_none_or_pos _ _ (by norm_num)
          (lookupQ_none_or_pos _ fr_cv_1c_pos s)
      | exact map_mul_none_or_pos _ _ (by norm_num)
          (lookupQ_none_or_pos _ tfr_8_1c_pos s)

/-- C6: A spec with cable type "HFIX" and any cores value other than
"1C" makes `calculate` return the outer-diameter-lookup typed failure (the
source's `UnsupportedCableSpec` error string) immediately, with no partial
result. -/
theorem calculate_hfix_multicore_fails (data : CableData)
    (htype : data.cable_type = "HFIX") (hcores : data.cores ≠ "1C") :
    calculate data = .error "지원하지 않는 전선 규격입니다." := by
  have hod : get_cable_outer_diameter data.cable_type data.size data.cores = none := by
    rw [htype]
    simp [get_cable_outer_diameter, hcores]
  unfold calculate
  rw [hod]

theorem calculate_hfix_multicore_fails_witness :
    calculate c6_data = .error "지원하지 않는 전선 규격입니다." :=
  calculate_hfix_multicore_fails c6_data rfl (by decide)

/-- Success characterization of `calculate`: it returns `.ok res` exactly
when the outer-diameter lookup and the ampacity lookup both succeed, and
`res` is the packaged record built from the pipeline's intermediate
values. -/
theorem calculate_eq_ok (data : CableData) (res : CalculationResult) :
    calculate data = .ok res ↔
    ∃ od cv,
      get_cable_outer_diameter data.cable_type data.size data.cores = some od ∧
      lookup3 get_allowable_current_table data.size
        (get_insulation_type data.cable_type) (resolve_install_method data) = some cv ∧
      res = {
        total_area := round2 (total_area_of data od)
        conductor_area := round2 (parse_size data.size * (data.quantity : ℚ))
        allowable_current := round1 ((select_base_current data.system cv).1 *
          get_grouping_factor (num_circuits data))
        recommended_conduit := (recommend_conduit (total_area_of data od)).1
        fill_rate := round1 (recommend_conduit (total_area_of data od)).2
        install_method_desc :=
          get_install_method_description (resolve_install_method data) ++ " / " ++
            (select_base_current data.system cv).2 ++ " / 집합계수: " ++
            format2 (get_grouping_factor (num_circuits data)) ++ " (" ++
            toString (num_circuits data) ++ "회로)" } := by
  unfold calculate
  cases hod : get_cable_outer_diameter data.cable_type data.size data.cores with
  | none => simp [hod]
  | some od =>
    cases hcv : lookup3 get_allowable_current_table data.size
        (get_insulation_type data.cable_type) (resolve_install_method data) with
    | none => simp [hcv]
    | some cv =>
      simp only [hcv, Except.ok.injEq, Option.some.injEq]
      constructor
      · intro h
        exact ⟨od, cv, rfl, rfl, h.symm⟩
      · rintro ⟨od2, cv2, hod2, hcv2, hres⟩
        cases hod2
        cases hcv2
        exact hres.symm

/-- C1: On every successful `calculate`, the returned allowable current
(before the 1-decimal display rounding) is the ampacity-pair entry selected
by voltage system — 2-loaded for "1Φ", 3-loaded for "3Φ", 2-loaded as the
fallback for any other label — multiplied by the grouping factor of the
computed circuit count, with no additional per-core derating factor. -/
theorem allowable_current_is_pair_times_grouping (data : CableData)
    (res : CalculationResult) (h : calculate data = .ok res) :
    ∃ cv, lookup3 get_allowable_current_table data.size
        (get_insulation_type data.cable_type) (resolve_install_method data) = some cv ∧
      res.allowable_current = round1
        ((if data.system = "1Φ" then cv.1
          else if data.system = "3Φ" then cv.2 else cv.1) *
          get_grouping_factor (num_circuits data)) := by
  obtain ⟨od, cv, hod, hcv, hres⟩ := (calculate_eq_ok data res).mp h
  refine ⟨cv, hcv, ?_⟩
  rw [hres]
  show round1 ((select_base_current data.system cv).1 * _) = _
  unfold select_base_current
  split_ifs <;> rfl

set_option maxRecDepth 40000 in
set_option maxHeartbeats 4000000 in
theorem allowable_current_is_pair_times_grouping_witness :
    ∃ res, calculate c1_data = .ok res ∧
      ∃ cv, lookup3 get_allowable_current_table c1_data.size
          (get_insulation_type c1_data.cable_type) (resolve_install_method c1_data) = some cv ∧
        res.allowable_current = round1
          ((if c1_data.system = "1Φ" then cv.1
            else if c1_data.system = "3Φ" then cv.2 else cv.1) *
            get_grouping_factor (num_circuits c1_data)) := by
  have hok : ∃ res, calculate c1_data = .ok res := by
    refine ⟨_, (calculate_eq_ok c1_data _).mpr ⟨6.7, (31, 28), ?_, ?_, rfl⟩⟩
    · simp [c1_data, get_cable_outer_diameter, lookupQ, tfr_cv_1c]
    · norm_num +decide [c1_data, lookup3, get_allowable_current_table,
        get_insulation_type, resolve_install_method,
        pvc_a1, pvc_a2, pvc_b1, pvc_b2, pvc_c, pvc_d1, pvc_d2, pvc_e, pvc_f,
        xlpe_a1, xlpe_a2, xlpe_b1, xlpe_b2, xlpe_c, xlpe_d1, xlpe_d2, xlpe_e, xlpe_f]
  obtain ⟨res, hok⟩ := hok
  exact ⟨res, hok, allowable_current_is_pair_times_grouping c1_data res hok⟩

/-- Any cable type on which the outer-diameter lookup can succeed is one of
the five supported families, and all of them resolve to XLPE. -/
theorem insulation_xlpe_of_od_some (t s c : String) (d : ℚ)
    (h : get_cable_outer_diameter t s c = some d) :
    get_insulation_type t = "XLPE" := by
  unfold get_cable_outer_diameter at h
  split_ifs at h <;> simp_all [get_insulation_type]

/-- C10: Every cable type for which the outer-diameter lookup can return
a value resolves to the XLPE insulation class, and every other cable type
fails the lookup before the ampacity step; hence every spec on which
`calculate` succeeds resolved to XLPE and the PVC ampacity rows are
unreachable through `calculate`. -/
theorem calculate_insulation_always_xlpe :
    (∀ t s c d, get_cable_outer_diameter t s c = some d →
      get_insulation_type t = "XLPE") ∧
    (∀ data res, calculate data = .ok res →
      get_insulation_type data.cable_type = "XLPE") := by
  refine ⟨insulation_xlpe_of_od_some, fun data res h => ?_⟩
  obtain ⟨od, cv, hod, hcv, hres⟩ := (calculate_eq_ok data res).mp h
  exact insulation_xlpe_of_od_some data.cable_type data.size data.cores od hod

/-- C9: For a spec whose main outer-diameter lookup succeeded: with a
ground wire requested, the total area is the main cables' area plus the
area of exactly one 1-core HFIX ground wire of the stepped-down size (with
a missing ground diameter silently skipped, not an error); without one it
is the main cables' area alone; the total area (before rounding) is always
at least `singleCableArea × quantity`; and a successful `calculate` reports
the 2-decimal rounding of this total. -/
theorem total_area_ground_wire_structure (data : CableData) (od : ℚ)
    (h : get_cable_outer_diameter data.cable_type data.size data.cores = some od) :
    (data.ground_wire = "HFIX" →
      total_area_of data od =
        calculate_cable_area od * (data.quantity : ℚ) +
          (match get_cable_outer_diameter "HFIX" (ground_size data.size) "1C" with
           | some ground_od => calculate_cable_area ground_od
           | none => 0)) ∧
    (data.ground_wire ≠ "HFIX" →
      total_area_of data od = calculate_cable_area od * (data.quantity : ℚ)) ∧
    calculate_cable_area od * (data.quantity : ℚ) ≤ total_area_of data od ∧
    (∀ res, calculate data = .ok res →
      res.total_area = round2 (total_area_of data od)) := by
  have harea : ∀ q : ℚ, 0 ≤ calculate_cable_area q := by
    intro q
    unfold calculate_cable_area
    have hpi : (0 : ℚ) ≤ pi_f64 := by norm_num [pi_f64]
    positivity
  refine ⟨fun hg => ?_, fun hg => ?_, ?_, fun res hres => ?_⟩
  · unfold total_area_of
    rw [if_pos hg]
    cases hgod : get_cable_outer_diameter "HFIX" (ground_size data.size) "1C" with
    | none => simp
    | some god => simp
  · simp [total_area_of, hg]
  · unfold total_area_of
    split_ifs with hg
    · cases hgod : get_cable_outer_diameter "HFIX" (ground_size data.size) "1C" with
      | none => simp
      | some god => simpa using harea god
    · simp
  · obtain ⟨od2, cv, hod2, hcv, hr⟩ := (calculate_eq_ok data res).mp hres
    have hod_eq : od2 = od := by
      rw [h] at hod2
      exact (Option.some.inj hod2).symm
    rw [hr, hod_eq]

theorem total_area_ground_wire_structure_witness :
    get_cable_outer_diameter c9_data.cable_type c9_data.size c9_data.cores = some 22.5 ∧
    calculate_cable_area 22.5 * (c9_data.quantity : ℚ) ≤ total_area_of c9_data 22.5 ∧
    total_area_of c9_data 22.5 =
      calculate_cable_area 22.5 * (c9_data.quantity : ℚ) +
        (match get_cable_outer_diameter "HFIX" (ground_size c9_data.size) "1C" with
         | some ground_od => calculate_cable_area ground_od
         | none => 0) := by
  have h : get_cable_outer_diameter c9_data.cable_type c9_data.size c9_data.cores =
      some 22.5 := by
    simp [c9_data, get_cable_outer_diameter, lookupQ, hfix_1c]
  have hs := total_area_ground_wire_structure c9_data 22.5 h
  exact ⟨h, hs.2.2.1, hs.1 rfl⟩

set_option maxRecDepth 40000 in
set_option maxHeartbeats 4000000 in
/-- C7: For a spec with size "2.5", cores "1C", quantity 2, single-phase
system, explicit method "B1", and a cable type resolving to the PVC
insulation class (the default for unrecognized types), the ampacity stage
of the calculation yields the pair whose 2-loaded entry is 24.0 A, circuit
count 1, grouping factor 1.00, and allowable current 24.0 A (before
rounding).  (End-to-end, such a spec fails earlier at the outer-diameter
lookup — see C10 — so this pins the derating stage the scenario
describes.) -/
theorem scenario_pvc_b1_2_5 (data : CableData)
    (hsize : data.size = "2.5") (hcores : data.cores = "1C")
    (hqty : data.quantity = 2) (hsys : data.system = "1Φ")
    (hmethod : data.install_method = "B1")
    (hins : get_insulation_type data.cable_type = "PVC") :
    lookup3 get_allowable_current_table data.size
      (get_insulation_type data.cable_type) (resolve_install_method data) =
      some (24.0, 21.0) ∧
    num_circuits data = 1 ∧
    get_grouping_factor (num_circuits data) = 1.00 ∧
    (select_base_current data.system (24.0, 21.0)).1 *
      get_grouping_factor (num_circuits data) = 24.0 := by
  have hmeth : resolve_install_method data = "B1" := by
    simp [resolve_install_method, hmethod, String.isEmpty_iff]
  have hnc : num_circuits data = 1 := by
    simp [num_circuits, hcores, hsys, hqty]
  refine ⟨?_, hnc, ?_, ?_⟩
  · rw [hsize, hins, hmeth]
    norm_num +decide [lookup3, get_allowable_current_table,
      pvc_a1, pvc_a2, pvc_b1, pvc_b2, pvc_c, pvc_d1, pvc_d2, pvc_e, pvc_f,
      xlpe_a1, xlpe_a2, xlpe_b1, xlpe_b2, xlpe_c, xlpe_d1, xlpe_d2, xlpe_e, xlpe_f]
  · rw [hnc]
    norm_num [get_grouping_factor]
  · rw [hnc]
    norm_num [select_base_current, hsys, get_grouping_factor]

theorem scenario_pvc_b1_2_5_witness :
    lookup3 get_allowable_current_table c7_data.size
      (get_insulation_type c7_data.cable_type) (resolve_install_method c7_data) =
      some (24.0, 21.0) ∧
    num_circuits c7_data = 1 ∧
    get_grouping_factor (num_circuits c7_data) = 1.00 ∧
    (select_base_current c7_data.system (24.0, 21.0)).1 *
      get_grouping_factor (num_circuits c7_data) = 24.0 :=
  scenario_pvc_b1_2_5 c7_data rfl rfl rfl rfl rfl
    (by simp [c7_data, get_insulation_type])

/-- Unfolding the selection loop on an empty catalogue. -/
theorem recommend_conduit_loop_nil (total : ℚ) :
    recommend_conduit_loop [] total = ("C104 이상 검토 필요", 100.0) := rfl

/-- Unfolding the selection loop on a catalogue entry. -/
theorem recommend_conduit_loop_cons (name : String) (d : ℚ)
    (rest : List (String × ℚ)) (total : ℚ) :
    recommend_conduit_loop ((name, d) :: rest) total =
      if pi_f64 * (d / 2) ^ 2 * 0.33 ≥ total then
        (name, total / (pi_f64 * (d / 2) ^ 2) * 100)
      else recommend_conduit_loop rest total := rfl

/-- The conduit-selection loop returns the first catalogue entry whose
33%-fill capacity covers the area, with the fill percentage computed
against that conduit's actual area, and the sentinel on exhaustion. -/
theorem recommend_conduit_loop_spec (l : List (String × ℚ)) (total : ℚ) :
    (∀ p, l.find? (fun q => decide (total ≤ pi_f64 * (q.2 / 2) ^ 2 * 0.33)) = some p →
      recommend_conduit_loop l total = (p.1, total / (pi_f64 * (p.2 / 2) ^ 2) * 100) ∧
      total ≤ pi_f64 * (p.2 / 2) ^ 2 * 0.33) ∧
    (l.find? (fun q => decide (total ≤ pi_f64 * (q.2 / 2) ^ 2 * 0.33)) = none →
      recommend_conduit_loop l total = ("C104 이상 검토 필요", 100.0)) := by
  induction l with
  | nil => exact ⟨fun p hp => by simp at hp, fun _ => rfl⟩
  | cons a rest ih =>
    obtain ⟨name, d⟩ := a
    by_cases hc : total ≤ pi_f64 * (d / 2) ^ 2 * 0.33
    · refine ⟨fun p hp => ?_, fun hn => ?_⟩
      · rw [List.find?_cons_of_pos _ (by simpa using hc)] at hp
        cases hp
        exact ⟨by rw [recommend_conduit_loop_cons, if_pos hc], hc⟩
      · rw [List.find?_cons_of_pos _ (by simpa using hc)] at hn
        cases hn
    · have hloop : recommend_conduit_loop ((name, d) :: rest) total =
          recommend_conduit_loop rest total := by
        rw [recommend_conduit_loop_cons, if_neg hc]
      refine ⟨fun p hp => ?_, fun hn => ?_⟩
      · rw [List.find?_cons_of_neg _ (by simpa using hc)] at hp
        rw [hloop]
        exact ih.1 p hp
      · rw [List.find?_cons_of_neg _ (by simpa using hc)] at hn
        rw [hloop]
        exact ih.2 hn

/-- C3: `recommend_conduit` returns the first (smallest, in catalogue
order) conduit whose area times the 33% fill cap covers the total area,
reporting the fill percent as `totalArea / conduitArea × 100` against that
conduit's actual area (not the 33% cap); it never returns a conduit whose
33%-capacity is below the total area; and when no catalogue entry suffices
it returns the sentinel "needs larger conduit" label with fill percent
exactly 100.0 instead of an error. -/
theorem recommend_conduit_first_fit (total : ℚ) :
    (∀ p, get_conduit_data.find?
        (fun q => decide (total ≤ pi_f64 * (q.2 / 2) ^ 2 * 0.33)) = some p →
      recommend_conduit total = (p.1, total / (pi_f64 * (p.2 / 2) ^ 2) * 100) ∧
      total ≤ pi_f64 * (p.2 / 2) ^ 2 * 0.33) ∧
    (get_conduit_data.find?
        (fun q => decide (total ≤ pi_f64 * (q.2 / 2) ^ 2 * 0.33)) = none →
      recommend_conduit total = ("C104 이상 검토 필요", 100.0)) :=
  recommend_conduit_loop_spec get_conduit_data total
